import Mathlib

/-!
Verification development for the `lilac` session-lock client
(shallow embedding of `src/main.rs`).

The embedding models the client-side state of the program:

* `BufferSlot`, `BufferState` — the per-output double-buffer pool
  (`struct BufferSlot`, `struct BufferState` in the source).  OS-level
  handles (the memfd, the mmap handle, the `wl_shm_pool` and `wl_buffer`
  proxies) are not part of the client-visible state the claims speak
  about; the byte content of a slot's mapping is kept as `mem : List Nat`.
* `Monitor`, `Locker` — `struct Monitor` and `struct Locker`; protocol
  proxy handles are modelled by their presence (`Option Unit`) or, for
  lock surfaces, by their protocol object id (`Option Nat`), which is
  what the dispatch handlers compare.
* Outbound protocol requests are recorded in a trace of `Req` values.
* The dispatch handlers (`handleRelease`, `handleConfigure`,
  `handleLockEvent`) and the main-loop steps (`loopCommitStep`,
  `tickAuto`, `stepMain`, `runMain`) are translated function by function
  from the corresponding Rust items; `Instant` is modelled as a `Nat`
  time stamp and `Duration::from_secs(5)` as `5`.
-/

/-- The lock-session state machine (`enum LockState`). -/
inductive LockState where
  | Idle
  | Waiting
  | Locked
  | Finished
deriving DecidableEq, Repr

/-- Events delivered on the `ext_session_lock_v1` object: `Locked`,
`Finished`, or anything the handler does not recognise. -/
inductive LockEvent where
  | locked
  | finished
  | unknown
deriving DecidableEq, Repr

/-- Outbound protocol requests the client issues; `attach` names the
monitor and the slot whose `wl_buffer` is attached. -/
inductive Req where
  | attach (monitorName slotIndex : Nat) (x y : Int)
  | damageBuffer (x y w h : Int)
  | surfaceCommit
  | ackConfigure (serial : Nat)
  | unlockAndDestroy
deriving DecidableEq, Repr

/-- `struct BufferTag`: the user data attached to each `wl_buffer`. -/
structure BufferTag where
  monitor_name : Nat
  index : Nat
deriving DecidableEq, Repr

/-- `struct BufferSlot` (without the OS handles); `mem` is the byte
content of the shared-memory mapping. -/
structure BufferSlot where
  size : Int
  stride : Int
  mem : List Nat
  in_use : Bool
deriving DecidableEq, Repr

/-- `struct BufferState`: the fixed-size array `[BufferSlot; 2]` is a
pair, indexed through `get2`/`set2`. -/
structure BufferState where
  buffers : BufferSlot × BufferSlot
  dirty : Bool
  next_index : Nat
deriving DecidableEq, Repr

/-- Read the slot array at an index (callers only use indices `0` and
`1`, matching the length-2 array in the source). -/
def get2 (p : BufferSlot × BufferSlot) : Nat → BufferSlot
  | 0 => p.1
  | _ => p.2

/-- Write the slot array at an index. -/
def set2 (p : BufferSlot × BufferSlot) (i : Nat) (s : BufferSlot) : BufferSlot × BufferSlot :=
  if i = 0 then (s, p.2) else (p.1, s)

/-- `struct Monitor`; `surface` and `output` are modelled by presence,
`lock_surface` by its protocol object id. -/
structure Monitor where
  name : Nat
  output : Option Unit
  surface : Option Unit
  lock_surface : Option Nat
  dimensions : Nat × Nat
  buffer_state : Option BufferState
deriving DecidableEq, Repr

/-- `struct Locker`: the whole client state. -/
structure Locker where
  lock_manager : Option Unit
  lock : Option Unit
  compositor : Option Unit
  shared_memory : Option Unit
  monitors : List (Nat × Monitor)
  state : LockState
  auto_unlock_deadline : Option Nat
  auto_unlock_sent : Bool
deriving DecidableEq, Repr

/-- The `u32 → i32` conversion `try_into` used for `damage_buffer`
arguments: fails exactly when the value does not fit in `i32`. -/
def u32ToI32 (n : Nat) : Option Int :=
  if n < 2 ^ 31 then some (Int.ofNat n) else none

/-- Checked `i32` multiplication.  The source computes `stride` and
`size` in `i32` (`let stride = width * 4; let size = stride * height;`),
where overflow is a panic under Rust's checked (debug) semantics; in a
release build the wrapped value poisons the allocation instead
(`set_len`/`mmap` fail and the caller's `?`/`.unwrap()` aborts).  Either
way the program dies, modelled as `none`. -/
def i32Mul (a b : Int) : Option Int :=
  if -2 ^ 31 ≤ a * b ∧ a * b < 2 ^ 31 then some (a * b) else none

/-- `BufferSlot::new` (state part): `stride = width * 4`,
`size = stride * height` in checked `i32` arithmetic, a zero-filled
mapping, `in_use = false`.  The memfd creation, `set_len` and `mmap`
`?`-failures are environment (OS-resource) failures independent of the
client state and are not modelled. -/
def BufferSlot.new (width height : Int) : Except String BufferSlot :=
  match i32Mul width 4 with
  | none => .error "i32 overflow computing stride"
  | some stride =>
    match i32Mul stride height with
    | none => .error "i32 overflow computing size"
    | some size =>
      .ok { size := size
            stride := stride
            mem := List.replicate size.toNat 0
            in_use := false }

/-- `BufferState::new`: two fresh slots created in order with `?`,
`dirty = true`, cursor `0`. -/
def BufferState.new (width height : Int) : Except String BufferState :=
  match BufferSlot.new width height with
  | .error e => .error e
  | .ok buffer_0 =>
    match BufferSlot.new width height with
    | .error e => .error e
    | .ok buffer_1 =>
      .ok { buffers := (buffer_0, buffer_1)
            dirty := true
            next_index := 0 }

/-- `BufferSlot::fill_solid_color`: every 4-byte pixel of the mapping is
overwritten with `color` (`size` is always a multiple of 4 because
`size = width * 4 * height`). -/
def BufferSlot.fill_solid_color (s : BufferSlot) (color : List Nat) : BufferSlot :=
  { s with mem := List.flatten (List.replicate (s.size.toNat / 4) color) }

/-- `BufferState::fill_solid_color`: fills both slots and sets `dirty`. -/
def BufferState.fill_solid_color (bs : BufferState) (color : List Nat) : BufferState :=
  { bs with
    buffers := (bs.buffers.1.fill_solid_color color, bs.buffers.2.fill_solid_color color)
    dirty := true }

/-- `0xFF0000FFu32.to_ne_bytes()` on a little-endian host. -/
def blueBytes : List Nat := [0xFF, 0x00, 0x00, 0xFF]

/-- `BufferState::acquire_free_buffer_index`.  The source loops over
`offset in 0..2` probing `(next_index + offset) % 2`; here the two
iterations of that loop are unrolled (`total = 2` is fixed by the array
type). -/
def acquire_free_buffer_index (bs : BufferState) : Option Nat × BufferState :=
  let i0 := bs.next_index % 2
  if (get2 bs.buffers i0).in_use = false then
    (some i0, { bs with next_index := (i0 + 1) % 2 })
  else
    let i1 := (bs.next_index + 1) % 2
    if (get2 bs.buffers i1).in_use = false then
      (some i1, { bs with next_index := (i1 + 1) % 2 })
    else
      (none, bs)

/-- Set the `in_use` flag of one slot of a pool. -/
def BufferState.setInUse (bs : BufferState) (i : Nat) (v : Bool) : BufferState :=
  { bs with buffers := set2 bs.buffers i { get2 bs.buffers i with in_use := v } }

/-- `Monitor::commit`.  Returns the `anyhow::Result<bool>` outcome, the
monitor after the call (mutations made before an early `?` return are
kept, as with `&mut self` in the source), and the requests sent.  The
`attach` request precedes the `try_into` conversions of the
`damage_buffer` arguments, as in the source. -/
def Monitor.commit (m : Monitor) : Except String Bool × Monitor × List Req :=
  match m.buffer_state with
  | none => (.error "buffer state cannot be None", m, [])
  | some bs =>
    match acquire_free_buffer_index bs with
    | (none, bs') => (.ok false, { m with buffer_state := some bs' }, [])
    | (some buffer_index, bs') =>
      match m.surface with
      | none => (.error "surface cannot be None", { m with buffer_state := some bs' }, [])
      | some _ =>
        let reqs := [Req.attach m.name buffer_index 0 0]
        match u32ToI32 m.dimensions.1, u32ToI32 m.dimensions.2 with
        | some w, some h =>
          let bs2 := { bs'.setInUse buffer_index true with dirty := false }
          (.ok true, { m with buffer_state := some bs2 },
            reqs ++ [Req.damageBuffer 0 0 w h, Req.surfaceCommit])
        | _, _ => (.error "try_into out of range", { m with buffer_state := some bs' }, reqs)

/-- Marking content stale: `dirty = true` (the effect of every UI-state
change, e.g. the `self.dirty = true` in `fill_solid_color`). -/
def markDirty (bs : BufferState) : BufferState :=
  { bs with dirty := true }

/-- One monitor's share of the main loop's redraw pass
(`main`, the `for monitor in locker.monitors.values_mut()` body):
commit only when the pool exists and is dirty; a commit error
propagates out of `main` via `?`. -/
def loopCommitStep (m : Monitor) : Except String (Monitor × List Req) :=
  if (m.buffer_state.map fun bs => bs.dirty).getD false then
    match m.commit with
    | (.error e, _, _) => .error e
    | (.ok _, m', reqs) => .ok (m', reqs)
  else
    .ok (m, [])

/-- The body of the `wl_buffer::Event::Release` handler for one monitor:
clear `in_use` of slot `tag.index` when the pool exists and the index is
in bounds; otherwise do nothing. -/
def releaseInMonitor (m : Monitor) (index : Nat) : Monitor :=
  match m.buffer_state with
  | none => m
  | some bs =>
    if index < 2 then
      { m with buffer_state := some (bs.setInUse index false) }
    else
      m

/-- `Dispatch<WlBuffer, BufferTag>`, `Release` arm: look up the monitor
named by the tag (`monitors.get_mut`) and clear that slot.  The
`HashMap` is an association list here; an absent key means no entry is
touched. -/
def handleRelease (l : Locker) (tag : BufferTag) : Locker :=
  { l with
    monitors := l.monitors.map fun km =>
      if km.1 = tag.monitor_name then (km.1, releaseInMonitor km.2 tag.index) else km }

/-- The per-matching-monitor body of the
`ext_session_lock_surface_v1::Event::Configure` handler: apply the
`0 → 1920 / 0 → 1080` fallback, record the dimensions, `ack_configure`,
build a fresh pool (the `.unwrap()` panics on a missing `wl_shm` handle
or an out-of-`i32`-range dimension are `Except.error`), fill it blue,
install it, and attempt a first commit (whose `Ok(false)` / `Err`
outcomes are only logged). -/
def configureMonitor (shmPresent : Bool) (m : Monitor) (w h serial : Nat) :
    Except String (Monitor × List Req) :=
  let final_width := if w = 0 then 1920 else w
  let final_height := if h = 0 then 1080 else h
  let m1 := { m with dimensions := (final_width, final_height) }
  if shmPresent = false then .error "unwrap on missing wl_shm" else
  match u32ToI32 final_width, u32ToI32 final_height with
  | some wi, some hi =>
    match BufferState.new wi hi with
    | .error e => .error e
    | .ok bs0 =>
      let bs := bs0.fill_solid_color blueBytes
      let m2 := { m1 with buffer_state := some bs }
      let res := m2.commit
      .ok (res.2.1, Req.ackConfigure serial :: res.2.2)
  | _, _ => .error "unwrap on try_into"

/-- The `Configure` handler's scan over `state.monitors.iter_mut()`:
monitors whose `lock_surface` id differs from the event's proxy id are
skipped (`continue`); matching ones are configured.  A panic
short-circuits (the process dies, so requests already sent are dropped
from the trace; no claim depends on them). -/
def configureAll (shmPresent : Bool) (ms : List (Nat × Monitor)) (pid w h serial : Nat) :
    Except String (List (Nat × Monitor) × List Req) :=
  match ms with
  | [] => .ok ([], [])
  | (k, m) :: rest =>
    if m.lock_surface = some pid then
      match configureMonitor shmPresent m w h serial with
      | .error e => .error e
      | .ok (m', reqs) =>
        match configureAll shmPresent rest pid w h serial with
        | .error e => .error e
        | .ok (rest', reqs') => .ok ((k, m') :: rest', reqs ++ reqs')
    else
      match configureAll shmPresent rest pid w h serial with
      | .error e => .error e
      | .ok (rest', reqs') => .ok ((k, m) :: rest', reqs')

/-- `Dispatch<ExtSessionLockSurfaceV1, ()>`, `Configure` arm, at the
`Locker` level. -/
def handleConfigure (l : Locker) (pid w h serial : Nat) :
    Except String (Locker × List Req) :=
  match configureAll l.shared_memory.isSome l.monitors pid w h serial with
  | .error e => .error e
  | .ok (ms, reqs) => .ok ({ l with monitors := ms }, reqs)

/-- `Locker::is_initialized`: the four startup-validation checks, in
source order. -/
def Locker.is_initialized (l : Locker) : Except String Unit :=
  if l.lock_manager.isNone then
    .error "could not find a lock manager in the registry advertisement"
  else if l.compositor.isNone then
    .error "could not find a compositor in the registry advertisement"
  else if l.shared_memory.isNone then
    .error "could not find shared memory in the registry advertisement"
  else if l.monitors.isEmpty then
    .error "could not find any outputs in the registry advertisement"
  else
    .ok ()

/-- The lock request issued once in `main` after startup validation:
`locker.lock = Some(lock); locker.state = LockState::Waiting`. -/
def request_lock (l : Locker) : Locker :=
  { l with lock := some (), state := .Waiting }

/-- `Dispatch<ExtSessionLockV1, ()>`: `Locked` sets the state and arms
the 5-second auto-unlock deadline; `Finished` sets the terminal state;
unrecognised events are logged and ignored.  `now` is the `Instant` at
which the event is handled. -/
def handleLockEvent (l : Locker) (e : LockEvent) (now : Nat) : Locker :=
  match e with
  | .locked => { l with state := .Locked, auto_unlock_deadline := some (now + 5) }
  | .finished => { l with state := .Finished }
  | .unknown => l

/-- The `match locker.state` block at the bottom of the main loop
(auto-unlock policy).  `Finished` breaks the loop and `Idle` aborts;
neither emits a request, so both are identity steps here. -/
def tickAuto (l : Locker) (now : Nat) : Locker × List Req :=
  match l.state with
  | .Finished => (l, [])
  | .Idle => (l, [])
  | .Waiting => (l, [])
  | .Locked =>
    if l.auto_unlock_sent then (l, [])
    else
      match l.auto_unlock_deadline with
      | some deadline =>
        if deadline ≤ now then
          match l.lock with
          | some _ => ({ l with auto_unlock_sent := true }, [Req.unlockAndDestroy])
          | none => (l, [])
        else (l, [])
      | none => (l, [])

/-- The main loop's redraw pass over all monitors; a commit error
aborts `main` (short-circuit). -/
def commitPassAll (ms : List (Nat × Monitor)) :
    Except String (List (Nat × Monitor) × List Req) :=
  match ms with
  | [] => .ok ([], [])
  | (k, m) :: rest =>
    match loopCommitStep m with
    | .error e => .error e
    | .ok (m', reqs) =>
      match commitPassAll rest with
      | .error e => .error e
      | .ok (rest', reqs') => .ok ((k, m') :: rest', reqs ++ reqs')

/-- One observable step of the main loop: a dispatched incoming event
(lock event, buffer release, or lock-surface configure), the redraw
pass, or the auto-unlock check.  Times are explicit arguments. -/
inductive MainAct where
  | dispatchLock (e : LockEvent) (now : Nat)
  | dispatchRelease (tag : BufferTag)
  | dispatchConfigure (pid w h serial : Nat)
  | commitPass
  | tick (now : Nat)
deriving DecidableEq, Repr

/-- The effect of one `MainAct` on the `Locker`; `Except.error` is a
process abort (panic or `?` propagation out of `main`). -/
def stepMain (l : Locker) (a : MainAct) : Except String (Locker × List Req) :=
  match a with
  | .dispatchLock e now => .ok (handleLockEvent l e now, [])
  | .dispatchRelease tag => .ok (handleRelease l tag, [])
  | .dispatchConfigure pid w h serial => handleConfigure l pid w h serial
  | .commitPass =>
    match commitPassAll l.monitors with
    | .error e => .error e
    | .ok (ms, reqs) => .ok ({ l with monitors := ms }, reqs)
  | .tick now => .ok (tickAuto l now)

/-- Run a sequence of main-loop steps, accumulating the request trace;
an abort stops the run (an aborted process issues nothing further). -/
def runMain (l : Locker) : List MainAct → Locker × List Req
  | [] => (l, [])
  | a :: rest =>
    match stepMain l a with
    | .error _ => (l, [])
    | .ok (l', reqs) =>
      let (l'', reqs') := runMain l' rest
      (l'', reqs ++ reqs')

/-- Recogniser for the `unlock_and_destroy` request. -/
def Req.isUnlock : Req → Bool
  | .unlockAndDestroy => true
  | _ => false

/-- Recogniser for `ack_configure` requests. -/
def Req.isAck : Req → Bool
  | .ackConfigure _ => true
  | _ => false

/-- Recogniser for the surface `commit` request. -/
def Req.isSurfaceCommit : Req → Bool
  | .surfaceCommit => true
  | _ => false

/-- A free 1x1 slot with zeroed memory (concrete test state). -/
def slotFree : BufferSlot :=
  { size := 4, stride := 4, mem := List.replicate 4 0, in_use := false }

/-- A busy 1x1 slot (concrete test state). -/
def slotBusy : BufferSlot :=
  { size := 4, stride := 4, mem := List.replicate 4 0, in_use := true }

/-- A pool with both slots busy (concrete test state). -/
def bsBothBusy : BufferState :=
  { buffers := (slotBusy, slotBusy), dirty := true, next_index := 0 }

/-- A dirty pool with both slots free (concrete test state). -/
def bsBothFree : BufferState :=
  { buffers := (slotFree, slotFree), dirty := true, next_index := 0 }

/-- A concrete locker with two monitors (names 7 and 8) whose pools both
have slot 1 busy (C2 witness input). -/
def lockerC2 : Locker :=
  { lock_manager := some (), lock := some (), compositor := some ()
    shared_memory := some ()
    monitors :=
      [(7, { name := 7, output := some (), surface := some (), lock_surface := some 20
             dimensions := (1, 1)
             buffer_state := some { buffers := (slotFree, slotBusy), dirty := false, next_index := 0 } }),
       (8, { name := 8, output := some (), surface := some (), lock_surface := some 21
             dimensions := (1, 1)
             buffer_state := some { buffers := (slotFree, slotBusy), dirty := false, next_index := 0 } })]
    state := .Locked, auto_unlock_deadline := some 5, auto_unlock_sent := false }

/-- The monitor of name 8 inside `lockerC2`. -/
def monC2other : Monitor :=
  { name := 8, output := some (), surface := some (), lock_surface := some 21
    dimensions := (1, 1)
    buffer_state := some { buffers := (slotFree, slotBusy), dirty := false, next_index := 0 } }

/-- A locker with one monitor named 3 whose pool does not exist yet (C10
witness input). -/
def lockerC10 : Locker :=
  { lock_manager := some (), lock := some (), compositor := some ()
    shared_memory := some ()
    monitors :=
      [(3, { name := 3, output := some (), surface := some (), lock_surface := some 30
             dimensions := (0, 0), buffer_state := none })]
    state := .Locked, auto_unlock_deadline := some 5, auto_unlock_sent := false }

/-- A concrete monitor whose pool has both slots busy (C1 witness input). -/
def monC1busy : Monitor :=
  { name := 3, output := some (), surface := some (), lock_surface := some 11
    dimensions := (1, 1), buffer_state := some bsBothBusy }

/-- A concrete monitor with a free, zero-filled pool (C1 counterexample
input). -/
def monC1free : Monitor :=
  { name := 3, output := some (), surface := some (), lock_surface := some 11
    dimensions := (1, 1), buffer_state := some bsBothFree }

/-- A locked session just after the `locked` event, guard down (C5
witness input). -/
def lockerC5 : Locker :=
  { lock_manager := some (), lock := some (), compositor := some ()
    shared_memory := some (), monitors := []
    state := .Locked, auto_unlock_deadline := some 5, auto_unlock_sent := false }

/-- A finished session (C4 counterexample / witness input). -/
def lockerFin : Locker :=
  { lock_manager := some (), lock := some (), compositor := some ()
    shared_memory := some (), monitors := []
    state := .Finished, auto_unlock_deadline := none, auto_unlock_sent := true }

/-- A dirty monitor with both slots free (C8 witness input). -/
def monC8 : Monitor :=
  { name := 4, output := some (), surface := some (), lock_surface := some 12
    dimensions := (1, 1), buffer_state := some bsBothFree }

/-- A monitor whose lock-surface id is 20 (C6 witness input). -/
def monC6a : Monitor :=
  { name := 1, output := some (), surface := some (), lock_surface := some 20
    dimensions := (0, 0), buffer_state := none }

/-- A monitor whose lock-surface id is 21 (C6 witness input). -/
def monC6b : Monitor :=
  { name := 2, output := some (), surface := some (), lock_surface := some 21
    dimensions := (0, 0), buffer_state := none }

/-- A locker holding `monC6a` and `monC6b` (C6 witness input). -/
def lockerC6 : Locker :=
  { lock_manager := some (), lock := some (), compositor := some ()
    shared_memory := some ()
    monitors := [(1, monC6a), (2, monC6b)]
    state := .Locked, auto_unlock_deadline := some 5, auto_unlock_sent := false }

/-- The pool of the C7 counterexample monitor before the repeated
configure: slot 1 busy, cursor 0, not dirty. -/
def bsOldC7 : BufferState :=
  { buffers := (slotFree, slotBusy), dirty := false, next_index := 0 }

/-- The C7 counterexample monitor: dimensions already (1, 1), pool
`bsOldC7` in place. -/
def monC7 : Monitor :=
  { name := 7, output := some (), surface := some (), lock_surface := some 5
    dimensions := (1, 1), buffer_state := some bsOldC7 }

/-- The C7 counterexample locker. -/
def lockerC7 : Locker :=
  { lock_manager := some (), lock := some (), compositor := some ()
    shared_memory := some ()
    monitors := [(7, monC7)]
    state := .Locked, auto_unlock_deadline := some 5, auto_unlock_sent := false }

/-- Helper: the successful acquire returns an in-bounds free slot and only
advances the cursor just past it. -/
theorem acquire_some_spec (bs : BufferState) (i : Nat)
    (h : (acquire_free_buffer_index bs).1 = some i) :
    i < 2 ∧ (get2 bs.buffers i).in_use = false ∧
      acquire_free_buffer_index bs = (some i, { bs with next_index := (i + 1) % 2 }) := by
  have hacq : acquire_free_buffer_index bs =
      if (get2 bs.buffers (bs.next_index % 2)).in_use = false then
        (some (bs.next_index % 2), { bs with next_index := (bs.next_index % 2 + 1) % 2 })
      else if (get2 bs.buffers ((bs.next_index + 1) % 2)).in_use = false then
        (some ((bs.next_index + 1) % 2),
          { bs with next_index := ((bs.next_index + 1) % 2 + 1) % 2 })
      else (none, bs) := rfl
  rcases h0 : (get2 bs.buffers (bs.next_index % 2)).in_use with _ | _
  · rw [hacq, if_pos h0] at h ⊢
    obtain rfl : bs.next_index % 2 = i := by simpa using h
    exact ⟨Nat.mod_lt _ (by omega), h0, rfl⟩
  · rcases h1 : (get2 bs.buffers ((bs.next_index + 1) % 2)).in_use with _ | _
    · rw [hacq, if_neg (by simp [h0]), if_pos h1] at h ⊢
      obtain rfl : (bs.next_index + 1) % 2 = i := by simpa using h
      exact ⟨Nat.mod_lt _ (by omega), h1, rfl⟩
    · rw [hacq, if_neg (by simp [h0]), if_neg (by simp [h1])] at h
      simp at h

/-- Helper: when both slots are busy, acquire fails and leaves the pool
untouched. -/
theorem acquire_none_spec (bs : BufferState)
    (h0 : (get2 bs.buffers 0).in_use = true) (h1 : (get2 bs.buffers 1).in_use = true) :
    acquire_free_buffer_index bs = (none, bs) := by
  have p0 : (get2 bs.buffers (bs.next_index % 2)).in_use = true := by
    rcases Nat.mod_two_eq_zero_or_one bs.next_index with h | h <;> rw [h] <;>
      simpa [get2] using (by assumption : _)
  have p1 : (get2 bs.buffers ((bs.next_index + 1) % 2)).in_use = true := by
    rcases Nat.mod_two_eq_zero_or_one (bs.next_index + 1) with h | h <;> rw [h] <;>
      simpa [get2] using (by assumption : _)
  unfold acquire_free_buffer_index
  simp [p0, p1]

/-- Helper: a failed acquire means both slots were busy. -/
theorem acquire_none_busy (bs : BufferState)
    (h : (acquire_free_buffer_index bs).1 = none) :
    (get2 bs.buffers 0).in_use = true ∧ (get2 bs.buffers 1).in_use = true ∧
      (acquire_free_buffer_index bs).2 = bs := by
  unfold acquire_free_buffer_index at h ⊢
  rcases h0 : (get2 bs.buffers (bs.next_index % 2)).in_use with _ | _
  · simp [h0] at h
  · rcases h1 : (get2 bs.buffers ((bs.next_index + 1) % 2)).in_use with _ | _
    · simp [h0, h1] at h
    · refine ⟨?_, ?_, by simp [h0, h1]⟩ <;>
      · rcases Nat.mod_two_eq_zero_or_one bs.next_index with hp | hp
        · have hq : (bs.next_index + 1) % 2 = 1 := by omega
          rw [hp] at h0; rw [hq] at h1
          first | exact h0 | exact h1
        · have hq : (bs.next_index + 1) % 2 = 0 := by omega
          rw [hp] at h0; rw [hq] at h1
          first | exact h0 | exact h1

/-- C3: `acquire_free_buffer_index` scans the two slots round-robin starting
at the pool's cursor, returns the index of the first slot whose `in_use` flag
is `false`, and advances the cursor to just past that slot; when both slots
are `in_use` it returns `none` and changes nothing (it never blocks: the
result is always immediate, never a wait). -/
theorem acquire_round_robin_C3 (bs : BufferState) :
    (acquire_free_buffer_index bs).1 =
      [bs.next_index % 2, (bs.next_index + 1) % 2].find?
        (fun i => !(get2 bs.buffers i).in_use) ∧
    (∀ i, (acquire_free_buffer_index bs).1 = some i →
      (get2 bs.buffers i).in_use = false ∧
      (acquire_free_buffer_index bs).2 = { bs with next_index := (i + 1) % 2 }) ∧
    ((acquire_free_buffer_index bs).1 = none →
      acquire_free_buffer_index bs = (none, bs) ∧
      (get2 bs.buffers 0).in_use = true ∧ (get2 bs.buffers 1).in_use = true) := by
  refine ⟨?_, ?_, ?_⟩
  · rcases h0 : (get2 bs.buffers (bs.next_index % 2)).in_use with _ | _ <;>
      rcases h1 : (get2 bs.buffers ((bs.next_index + 1) % 2)).in_use with _ | _ <;>
      simp [acquire_free_buffer_index, List.find?, h0, h1]
  · intro i hi
    obtain ⟨-, hfree, heq⟩ := acquire_some_spec bs i hi
    exact ⟨hfree, by rw [heq]⟩
  · intro hn
    obtain ⟨b0, b1, hsnd⟩ := acquire_none_busy bs hn
    refine ⟨?_, b0, b1⟩
    have := acquire_none_spec bs b0 b1
    exact this

/-- Witness for C3 at a concrete pool with both slots busy. -/
theorem acquire_round_robin_C3_witness :
    acquire_free_buffer_index bsBothBusy = (none, bsBothBusy) ∧
    (get2 bsBothBusy.buffers 0).in_use = true ∧
    (get2 bsBothBusy.buffers 1).in_use = true :=
  (acquire_round_robin_C3 bsBothBusy).2.2 (by decide)

/-- C9: `Locker::is_initialized` fails if and only if the lock manager is
missing, or the compositor is missing, or the shared-memory allocator is
missing, or no output was advertised; when all four are present it returns
`Ok` and startup proceeds. -/
theorem startup_validation_C9 (l : Locker) :
    (l.is_initialized ≠ .ok ()) ↔
      (l.lock_manager = none ∨ l.compositor = none ∨
        l.shared_memory = none ∨ l.monitors = []) := by
  rcases l with ⟨lm, lk, cp, shm, ms, st, dl, snt⟩
  rcases lm with _ | lmu <;> rcases cp with _ | cpu <;> rcases shm with _ | shmu <;>
    rcases ms with _ | ⟨m0, ms⟩ <;>
    simp [Locker.is_initialized]

/-- C2: a release notification tagged `(output_id, slot_index)` clears
`in_use` exactly for that slot of that output: every monitor with a
different name keeps its entry verbatim; the matching monitor only has
slot `slot_index` of its pool updated, and that update clears `in_use`
while preserving the slot's memory, size and stride, the other slot, the
`dirty` flag and the round-robin cursor (so releases are matched by the
tag alone, never by the rotation order). -/
theorem release_by_tag_C2 (l : Locker) (tag : BufferTag) (k : Nat) (m : Monitor) :
    ((k, m) ∈ l.monitors → k ≠ tag.monitor_name →
      (k, m) ∈ (handleRelease l tag).monitors) ∧
    ((k, m) ∈ l.monitors → k = tag.monitor_name →
      (k, releaseInMonitor m tag.index) ∈ (handleRelease l tag).monitors) ∧
    (∀ bs, m.buffer_state = some bs → tag.index < 2 →
      releaseInMonitor m tag.index =
        { m with buffer_state := some (bs.setInUse tag.index false) } ∧
      (get2 (bs.setInUse tag.index false).buffers tag.index).in_use = false ∧
      (get2 (bs.setInUse tag.index false).buffers tag.index).mem =
        (get2 bs.buffers tag.index).mem ∧
      (get2 (bs.setInUse tag.index false).buffers tag.index).size =
        (get2 bs.buffers tag.index).size ∧
      (∀ j, j < 2 → j ≠ tag.index →
        get2 (bs.setInUse tag.index false).buffers j = get2 bs.buffers j) ∧
      (bs.setInUse tag.index false).dirty = bs.dirty ∧
      (bs.setInUse tag.index false).next_index = bs.next_index) ∧
    (handleRelease l tag).state = l.state ∧
    (handleRelease l tag).auto_unlock_sent = l.auto_unlock_sent := by
  refine ⟨?_, ?_, ?_, rfl, rfl⟩
  · intro hmem hne
    exact List.mem_map.mpr ⟨(k, m), hmem, by simp [hne]⟩
  · intro hmem heq
    exact List.mem_map.mpr ⟨(k, m), hmem, by simp [heq]⟩
  · intro bs hbs hidx
    have hi : tag.index = 0 ∨ tag.index = 1 := by omega
    rcases hi with hi | hi <;>
      simp [releaseInMonitor, hbs, hidx, BufferState.setInUse, set2, get2, hi] <;>
      intro j hj hne <;>
      (have : j = 0 ∨ j = 1 := by omega) <;> rcases this with rfl | rfl <;>
      simp_all [get2]

/-- Witness for C2: releasing `(7, 1)` on `lockerC2` keeps monitor 8's
entry verbatim even though it has the same slot index busy. -/
theorem release_by_tag_C2_witness :
    (8, monC2other) ∈ (handleRelease lockerC2 ⟨7, 1⟩).monitors :=
  (release_by_tag_C2 lockerC2 ⟨7, 1⟩ 8 monC2other).1 (by decide) (by decide)

/-- C10: the release handler is total and a no-op on unmatched tags: if
every monitor entry carrying the tag's output id either has no buffer pool
yet or is addressed with a slot index out of bounds (and in particular if
no entry carries that id at all), the locker is returned entirely
unchanged. -/
theorem release_unmatched_noop_C10 (l : Locker) (tag : BufferTag)
    (h : ∀ k m, (k, m) ∈ l.monitors → k = tag.monitor_name →
      m.buffer_state = none ∨ 2 ≤ tag.index) :
    handleRelease l tag = l := by
  have hmap : (l.monitors.map fun km =>
      if km.1 = tag.monitor_name then (km.1, releaseInMonitor km.2 tag.index) else km)
        = l.monitors := by
    have := List.map_congr_left (l := l.monitors)
      (f := fun km : Nat × Monitor =>
        if km.1 = tag.monitor_name then (km.1, releaseInMonitor km.2 tag.index) else km)
      (g := id) ?_
    · simpa using this
    · rintro ⟨k, m⟩ hmem
      by_cases hk : k = tag.monitor_name
      · rcases h k m hmem hk with hnone | hbig
        · simp [hk, releaseInMonitor, hnone]
        · rcases hb : m.buffer_state with _ | bs
          · simp [hk, releaseInMonitor, hb]
          · simp [hk, releaseInMonitor, hb, show ¬ tag.index < 2 from by omega]
      · simp [hk]
  show { l with monitors := _ } = l
  rw [hmap]

/-- Witness for C10: a release tagged with an output id (9) absent from
the monitor map leaves the locker unchanged. -/
theorem release_unmatched_noop_C10_witness :
    handleRelease lockerC10 ⟨9, 0⟩ = lockerC10 :=
  release_unmatched_noop_C10 lockerC10 ⟨9, 0⟩ (by
    intro k m hmem hk
    simp [lockerC10] at hmem
    rw [hmem.1] at hk
    exact absurd hk (by decide))

/-- C1 (amended): for a monitor with a pool and a surface (dimensions in
`i32` range), `commit` returns `false` with no request and no state change
when both slots are `in_use`; otherwise it attaches the chosen free slot's
buffer at origin `(0,0)`, damages the full `(width, height)` region, issues
the surface commit, marks that slot `in_use` and clears the pool's `dirty`
flag — but it writes no pixel content itself: both slots' memory is exactly
as before (pixels are written beforehand, by the frame producer /
`fill_solid_color`). -/
theorem commit_spec_C1 (m : Monitor) (bs : BufferState)
    (hbs : m.buffer_state = some bs)
    (hsurf : m.surface = some ())
    (hw : m.dimensions.1 < 2 ^ 31) (hh : m.dimensions.2 < 2 ^ 31) :
    ((get2 bs.buffers 0).in_use = true → (get2 bs.buffers 1).in_use = true →
      m.commit = (.ok false, m, [])) ∧
    (∀ i, (acquire_free_buffer_index bs).1 = some i →
      m.commit =
        (.ok true,
         { m with buffer_state := some ({ bs with
             buffers := set2 bs.buffers i { get2 bs.buffers i with in_use := true },
             dirty := false,
             next_index := (i + 1) % 2 }) },
         [Req.attach m.name i 0 0,
          Req.damageBuffer 0 0 (Int.ofNat m.dimensions.1) (Int.ofNat m.dimensions.2),
          Req.surfaceCommit]) ∧
      (get2 ((m.commit.2.1.buffer_state.map fun b => b.buffers).getD bs.buffers) i).in_use
        = true ∧
      ((m.commit.2.1.buffer_state.map fun b => b.dirty).getD true) = false ∧
      (∀ j, j < 2 →
        (get2 ((m.commit.2.1.buffer_state.map fun b => b.buffers).getD bs.buffers) j).mem
          = (get2 bs.buffers j).mem)) := by
  constructor
  · intro h0 h1
    have hacq := acquire_none_spec bs h0 h1
    have : m.commit = (.ok false, { m with buffer_state := some bs }, []) := by
      simp only [Monitor.commit, hbs, hacq]
    rw [this]
    have : { m with buffer_state := some bs } = m := by
      rcases m with ⟨n, o, s, ls, d, b⟩
      simp at hbs
      simp [hbs]
    rw [this]
  · intro i hi
    obtain ⟨hlt, hfree, hacq⟩ := acquire_some_spec bs i hi
    have hcommit : m.commit =
        (.ok true,
         { m with buffer_state := some ({ bs with
             buffers := set2 bs.buffers i { get2 bs.buffers i with in_use := true },
             dirty := false,
             next_index := (i + 1) % 2 }) },
         [Req.attach m.name i 0 0,
          Req.damageBuffer 0 0 (Int.ofNat m.dimensions.1) (Int.ofNat m.dimensions.2),
          Req.surfaceCommit]) := by
      simp only [Monitor.commit, hbs, hacq, hsurf]
      simp [u32ToI32, BufferState.setInUse,
        show m.dimensions.1 < 2147483648 from by omega,
        show m.dimensions.2 < 2147483648 from by omega]
    refine ⟨hcommit, ?_, ?_, ?_⟩
    · rw [hcommit]
      rcases (show i = 0 ∨ i = 1 from by omega) with rfl | rfl <;>
        simp [BufferState.setInUse, set2, get2]
    · rw [hcommit]
      simp
    · intro j hj
      rw [hcommit]
      rcases (show i = 0 ∨ i = 1 from by omega) with rfl | rfl <;>
        rcases (show j = 0 ∨ j = 1 from by omega) with rfl | rfl <;>
        simp [BufferState.setInUse, set2, get2]

/-- Witness for C1 at a concrete monitor with both slots `in_use`:
`commit` returns `false` with no side effect and no request. -/
theorem commit_spec_C1_witness :
    Monitor.commit monC1busy = (.ok false, monC1busy, []) :=
  (commit_spec_C1 monC1busy bsBothBusy rfl rfl (by decide) (by decide)).1
    (by decide) (by decide)

/-- C1 counterexample: on this monitor `commit` succeeds (so, per the
claim, it should have written pixel content into the chosen slot's
memory), yet the memory of both slots after the call is byte-for-byte the
memory before the call — still all zero, not any pixel content.
`Monitor::commit` performs no write to slot memory. -/
theorem commit_no_pixel_write_C1_cex :
    (Monitor.commit monC1free).1 = .ok true ∧
    ((Monitor.commit monC1free).2.1.buffer_state.map
        fun b => ((get2 b.buffers 0).mem, (get2 b.buffers 1).mem)) =
      (monC1free.buffer_state.map
        fun b => ((get2 b.buffers 0).mem, (get2 b.buffers 1).mem)) ∧
    (monC1free.buffer_state.map fun b => (get2 b.buffers 0).mem) =
      some (List.replicate 4 0) :=
  ⟨rfl, rfl, rfl⟩

/-- Helper: `Monitor.commit` never sends `unlock_and_destroy` or
`ack_configure`; its requests are only attach / damage / commit. -/
theorem commit_reqs_plain (m : Monitor) :
    ∀ r ∈ (m.commit).2.2, r.isUnlock = false ∧ r.isAck = false := by
  intro r hr
  rcases m with ⟨name, out, surf, ls, dims, bstate⟩
  unfold Monitor.commit at hr
  rcases bstate with _ | bs
  · simp at hr
  · dsimp only at hr
    rcases hacq : acquire_free_buffer_index bs with ⟨ro, bs'⟩
    rw [hacq] at hr
    rcases ro with _ | i
    · simp at hr
    · dsimp only at hr
      rcases surf with _ | u
      · simp at hr
      · dsimp only at hr
        rcases hw : u32ToI32 dims.1 with _ | wi <;>
          rcases hh : u32ToI32 dims.2 with _ | hi <;>
          rw [hw, hh] at hr <;>
          simp at hr <;>
          rcases hr with rfl | rfl | rfl <;> simp [Req.isUnlock, Req.isAck]

/-- Helper: the main loop's per-monitor redraw step emits only commit
traffic, never `unlock_and_destroy` or `ack_configure`. -/
theorem loopCommitStep_reqs_plain (m m' : Monitor) (reqs : List Req)
    (hok : loopCommitStep m = .ok (m', reqs)) :
    ∀ r ∈ reqs, r.isUnlock = false ∧ r.isAck = false := by
  unfold loopCommitStep at hok
  by_cases hd : ((m.buffer_state.map fun bs => bs.dirty).getD false) = true
  · rw [if_pos hd] at hok
    rcases hc : m.commit with ⟨res, m1, r1⟩
    rw [hc] at hok
    rcases res with e | b
    · simp at hok
    · simp at hok
      obtain ⟨rfl, rfl⟩ := hok
      intro r hr
      have := commit_reqs_plain m r
      rw [hc] at this
      exact this hr
  · rw [if_neg hd] at hok
    simp at hok
    obtain ⟨rfl, rfl⟩ := hok
    simp

/-- Helper: a successful redraw pass over all monitors emits only commit
traffic. -/
theorem commitPassAll_reqs_plain (ms : List (Nat × Monitor)) (ms' : List (Nat × Monitor))
    (reqs : List Req) (hok : commitPassAll ms = .ok (ms', reqs)) :
    ∀ r ∈ reqs, r.isUnlock = false ∧ r.isAck = false := by
  induction ms generalizing ms' reqs with
  | nil =>
    unfold commitPassAll at hok
    simp at hok
    simp [hok.2]
  | cons km rest ih =>
    rcases km with ⟨k, m⟩
    unfold commitPassAll at hok
    rcases hstep : loopCommitStep m with e | ⟨m1, r1⟩ <;> rw [hstep] at hok
    · simp at hok
    · dsimp only at hok
      rcases hrest : commitPassAll rest with e | ⟨rest', reqs'⟩ <;> rw [hrest] at hok
      · simp at hok
      · simp at hok
        obtain ⟨-, rfl⟩ := hok
        intro r hr
        rcases List.mem_append.mp hr with h | h
        · exact loopCommitStep_reqs_plain m m1 r1 hstep r h
        · exact ih rest' reqs' hrest r h

/-- Helper: a successful `configureMonitor` returns the `ack_configure`
for the received serial followed by commit traffic only, and its result's
dimensions are the fallback-corrected proposal. -/
theorem configureMonitor_ok_spec (shm : Bool) (m : Monitor) (w h serial : Nat)
    (m' : Monitor) (reqs : List Req)
    (hok : configureMonitor shm m w h serial = .ok (m', reqs)) :
    (∃ rest, reqs = Req.ackConfigure serial :: rest ∧
      ∀ r ∈ rest, r.isUnlock = false ∧ r.isAck = false) ∧
    m'.dimensions = ((if w = 0 then 1920 else w), (if h = 0 then 1080 else h)) := by
  unfold configureMonitor at hok
  rcases shm with _ | _
  · simp at hok
  · rw [if_neg (show ¬(true = false) from by decide)] at hok
    rcases hw : u32ToI32 (if w = 0 then 1920 else w) with _ | wi <;>
      rcases hh : u32ToI32 (if h = 0 then 1080 else h) with _ | hi <;>
      rw [hw, hh] at hok <;> dsimp only at hok
    · simp at hok
    · simp at hok
    · simp at hok
    · rcases hbs : BufferState.new wi hi with e | bs0 <;> rw [hbs] at hok <;>
        dsimp only at hok
      · simp at hok
      · simp only [Except.ok.injEq, Prod.mk.injEq] at hok
        obtain ⟨hm', rfl⟩ := hok
        constructor
        · refine ⟨_, rfl, ?_⟩
          intro r hr
          exact commit_reqs_plain _ r hr
        · rw [← hm']
          rcases hacq : acquire_free_buffer_index
              (bs0.fill_solid_color blueBytes) with ⟨ro, bs'⟩
          unfold Monitor.commit
          dsimp only
          rw [hacq]
          rcases ro with _ | i
          · rfl
          · dsimp only
            rcases hs : m.surface with _ | u
            · rfl
            · dsimp only
              rw [hw, hh]

/-- Helper: the configure scan leaves monitors whose lock-surface id does
not match completely untouched and sends nothing for them. -/
theorem configureAll_nomatch (shm : Bool) (ms : List (Nat × Monitor)) (pid w h serial : Nat)
    (hnm : ∀ km ∈ ms, km.2.lock_surface ≠ some pid) :
    configureAll shm ms pid w h serial = .ok (ms, []) := by
  induction ms with
  | nil => rfl
  | cons km rest ih =>
    rcases km with ⟨k, m⟩
    unfold configureAll
    rw [if_neg (hnm (k, m) (by simp))]
    rw [ih fun x hx => hnm x (List.mem_cons_of_mem _ hx)]

/-- Helper: a successful configure dispatch emits no `unlock_and_destroy`. -/
theorem configureAll_no_unlock (shm : Bool) (ms : List (Nat × Monitor)) (pid w h serial : Nat)
    (ms' : List (Nat × Monitor)) (reqs : List Req)
    (hok : configureAll shm ms pid w h serial = .ok (ms', reqs)) :
    ∀ r ∈ reqs, r.isUnlock = false := by
  induction ms generalizing ms' reqs with
  | nil =>
    unfold configureAll at hok
    simp at hok
    simp [hok.2]
  | cons km rest ih =>
    rcases km with ⟨k, m⟩
    unfold configureAll at hok
    by_cases hm : m.lock_surface = some pid
    · rw [if_pos hm] at hok
      rcases hcm : configureMonitor shm m w h serial with e | ⟨m1, r1⟩ <;> rw [hcm] at hok
      · simp at hok
      · dsimp only at hok
        rcases hrest : configureAll shm rest pid w h serial with e | ⟨rest', reqs'⟩ <;>
          rw [hrest] at hok
        · simp at hok
        · simp at hok
          obtain ⟨-, rfl⟩ := hok
          intro r hr
          rcases List.mem_append.mp hr with hmem | hmem
          · obtain ⟨⟨rest1, hr1, hplain⟩, -⟩ :=
              configureMonitor_ok_spec shm m w h serial m1 r1 hcm
            rw [hr1] at hmem
            rcases List.mem_cons.mp hmem with rfl | hmem
            · rfl
            · exact (hplain r hmem).1
          · exact ih rest' reqs' hrest r hmem
    · rw [if_neg hm] at hok
      rcases hrest : configureAll shm rest pid w h serial with e | ⟨rest', reqs'⟩ <;>
        rw [hrest] at hok
      · simp at hok
      · simp at hok
        obtain ⟨-, rfl⟩ := hok
        exact ih rest' reqs' hrest

/-- Helper: a successful configure dispatch changes only the monitor map
of the locker. -/
theorem handleConfigure_ok_fields (l : Locker) (pid w h serial : Nat)
    (l' : Locker) (reqs : List Req)
    (hok : handleConfigure l pid w h serial = .ok (l', reqs)) :
    l'.state = l.state ∧ l'.auto_unlock_sent = l.auto_unlock_sent ∧
      l'.auto_unlock_deadline = l.auto_unlock_deadline ∧ l'.lock = l.lock ∧
      (∀ r ∈ reqs, r.isUnlock = false) := by
  unfold handleConfigure at hok
  rcases hc : configureAll l.shared_memory.isSome l.monitors pid w h serial with e | ⟨ms, rs⟩ <;>
    rw [hc] at hok
  · simp at hok
  · simp at hok
    obtain ⟨h1, h2⟩ := hok
    subst h1
    subst h2
    exact ⟨rfl, rfl, rfl, rfl, configureAll_no_unlock _ _ _ _ _ _ _ _ hc⟩

/-- Helper: a successful redraw pass changes only the monitor map and
emits no `unlock_and_destroy`. -/
theorem commitPass_ok_fields (l : Locker) (l' : Locker) (reqs : List Req)
    (hok : (match commitPassAll l.monitors with
            | .error e => .error e
            | .ok (ms, rs) => .ok ({ l with monitors := ms }, rs) :
              Except String (Locker × List Req)) = .ok (l', reqs)) :
    l'.state = l.state ∧ l'.auto_unlock_sent = l.auto_unlock_sent ∧
      l'.auto_unlock_deadline = l.auto_unlock_deadline ∧ l'.lock = l.lock ∧
      (∀ r ∈ reqs, r.isUnlock = false) := by
  rcases hc : commitPassAll l.monitors with e | ⟨ms, rs⟩ <;> rw [hc] at hok
  · simp at hok
  · simp at hok
    obtain ⟨h1, h2⟩ := hok
    subst h1
    subst h2
    refine ⟨rfl, rfl, rfl, rfl, ?_⟩
    intro r hr
    exact (commitPassAll_reqs_plain l.monitors ms rs hc r hr).1

/-- Helper: the auto-unlock check either does nothing at all or — exactly
when the state is `Locked`, no unlock was sent yet, the armed deadline has
elapsed, and the lock object exists — sends one `unlock_and_destroy` and
sets the idempotency guard, leaving every other field (in particular the
lock state) unchanged. -/
theorem tickAuto_cases (l : Locker) (now : Nat) :
    tickAuto l now = (l, []) ∨
    (l.state = .Locked ∧ l.auto_unlock_sent = false ∧
      (∃ d, l.auto_unlock_deadline = some d ∧ d ≤ now) ∧ l.lock = some () ∧
      tickAuto l now = ({ l with auto_unlock_sent := true }, [Req.unlockAndDestroy])) := by
  unfold tickAuto
  rcases hs : l.state
  · exact Or.inl rfl
  · exact Or.inl rfl
  · rcases hsent : l.auto_unlock_sent
    · rcases hd : l.auto_unlock_deadline with _ | d
      · simp
      · by_cases hnow : d ≤ now
        · rcases hl : l.lock with _ | u
          · simp [hnow]
          · right
            exact ⟨rfl, rfl, ⟨d, rfl, hnow⟩, rfl, by simp [hnow]⟩
        · simp [hnow]
    · simp
  · exact Or.inl rfl

/-- Helper: any successful main-loop step either emits no
`unlock_and_destroy` and preserves the idempotency guard, or emits
exactly one and raises the guard from `false` to `true`. -/
theorem stepMain_unlock_count (l : Locker) (a : MainAct) (l' : Locker) (r : List Req)
    (hok : stepMain l a = .ok (l', r)) :
    (List.countP Req.isUnlock r = 0 ∧ l'.auto_unlock_sent = l.auto_unlock_sent) ∨
    (List.countP Req.isUnlock r = 1 ∧ l.auto_unlock_sent = false ∧
      l'.auto_unlock_sent = true) := by
  cases a with
  | dispatchLock e now =>
    simp [stepMain] at hok
    obtain ⟨rfl, rfl⟩ := hok
    left
    refine ⟨rfl, ?_⟩
    cases e <;> rfl
  | dispatchRelease tag =>
    simp [stepMain] at hok
    obtain ⟨rfl, rfl⟩ := hok
    exact Or.inl ⟨rfl, rfl⟩
  | dispatchConfigure pid w h serial =>
    obtain ⟨-, hsent, -, -, hnul⟩ := handleConfigure_ok_fields l pid w h serial l' r hok
    left
    refine ⟨?_, hsent⟩
    rw [List.countP_eq_zero]
    intro x hx
    simp [hnul x hx]
  | commitPass =>
    simp only [stepMain] at hok
    obtain ⟨-, hsent, -, -, hnul⟩ := commitPass_ok_fields l l' r hok
    left
    refine ⟨?_, hsent⟩
    rw [List.countP_eq_zero]
    intro x hx
    simp [hnul x hx]
  | tick now =>
    simp only [stepMain, Except.ok.injEq] at hok
    rcases tickAuto_cases l now with hcase | ⟨-, hsent, -, -, hcase⟩ <;>
      rw [hcase] at hok
    · obtain ⟨rfl, rfl⟩ := Prod.mk.injEq .. ▸ hok
      exact Or.inl ⟨rfl, rfl⟩
    · obtain ⟨rfl, rfl⟩ := Prod.mk.injEq .. ▸ hok
      right
      exact ⟨by decide, hsent, rfl⟩

/-- Helper: once the state is `Finished`, any successful main-loop step
other than a (protocol-violating) `locked` dispatch leaves it `Finished`. -/
theorem stepMain_finished (l : Locker) (a : MainAct) (l' : Locker) (r : List Req)
    (hok : stepMain l a = .ok (l', r)) (hfin : l.state = .Finished)
    (hnl : ∀ now, a ≠ MainAct.dispatchLock .locked now) :
    l'.state = .Finished := by
  cases a with
  | dispatchLock e now =>
    simp [stepMain] at hok
    obtain ⟨rfl, -⟩ := hok
    cases e
    · exact absurd rfl (hnl now)
    · rfl
    · simpa [handleLockEvent] using hfin
  | dispatchRelease tag =>
    simp [stepMain] at hok
    obtain ⟨rfl, -⟩ := hok
    simpa [handleRelease] using hfin
  | dispatchConfigure pid w h serial =>
    obtain ⟨hstate, -⟩ := handleConfigure_ok_fields l pid w h serial l' r hok
    rw [hstate]
    exact hfin
  | commitPass =>
    simp only [stepMain] at hok
    obtain ⟨hstate, -⟩ := commitPass_ok_fields l l' r hok
    rw [hstate]
    exact hfin
  | tick now =>
    simp only [stepMain, Except.ok.injEq] at hok
    rcases tickAuto_cases l now with hcase | ⟨hst, -⟩
    · rw [hcase] at hok
      obtain ⟨rfl, -⟩ := Prod.mk.injEq .. ▸ hok
      exact hfin
    · rw [hfin] at hst
      exact absurd hst (by decide)

/-- Helper: once the guard is raised, no later step of the run ever emits
`unlock_and_destroy` again (nothing in the program resets the guard). -/
theorem runMain_sent_no_unlock (l : Locker) (acts : List MainAct)
    (hsent : l.auto_unlock_sent = true) :
    List.countP Req.isUnlock (runMain l acts).2 = 0 := by
  induction acts generalizing l with
  | nil => rfl
  | cons a rest ih =>
    unfold runMain
    rcases hstep : stepMain l a with e | ⟨l', r⟩
    · rfl
    · dsimp only
      rcases hrun : runMain l' rest with ⟨l2, r2⟩
      rcases stepMain_unlock_count l a l' r hstep with ⟨hc, hkeep⟩ | ⟨-, hfalse, -⟩
      · dsimp only
        rw [List.countP_append, hc]
        have h2 := ih l' (by rw [hkeep]; exact hsent)
        rw [hrun] at h2
        simpa using h2
      · rw [hsent] at hfalse
        exact absurd hfalse (by decide)

/-- Helper: starting with the guard down, a whole main-loop run emits
`unlock_and_destroy` at most once. -/
theorem runMain_unlock_at_most_once (l : Locker) (acts : List MainAct)
    (hsent : l.auto_unlock_sent = false) :
    List.countP Req.isUnlock (runMain l acts).2 ≤ 1 := by
  induction acts generalizing l with
  | nil => simp [runMain]
  | cons a rest ih =>
    unfold runMain
    rcases hstep : stepMain l a with e | ⟨l', r⟩
    · simp
    · dsimp only
      rcases hrun : runMain l' rest with ⟨l2, r2⟩
      dsimp only
      rw [List.countP_append]
      rcases stepMain_unlock_count l a l' r hstep with ⟨hc, hkeep⟩ | ⟨hc, -, htrue⟩
      · rw [hc]
        have h2 := ih l' (by rw [hkeep]; exact hsent)
        rw [hrun] at h2
        simpa using h2
      · rw [hc]
        have h2 := runMain_sent_no_unlock l' rest htrue
        rw [hrun] at h2
        simp [h2]

/-- C5: over every execution of the main loop (any sequence of dispatched
events, redraw passes and auto-unlock checks) started with the guard
down, `unlock_and_destroy` is issued at most once; it is issued only when
the state is `Locked`, the armed deadline has elapsed, no unlock has been
issued yet (and the lock object exists); and the auto-unlock check never
changes the lock state itself. -/
theorem auto_unlock_once_C5 :
    (∀ (l : Locker) (acts : List MainAct), l.auto_unlock_sent = false →
      List.countP Req.isUnlock (runMain l acts).2 ≤ 1) ∧
    (∀ (l : Locker) (now : Nat), (tickAuto l now).2 ≠ [] →
      l.state = .Locked ∧ l.auto_unlock_sent = false ∧
        (∃ d, l.auto_unlock_deadline = some d ∧ d ≤ now) ∧
        (tickAuto l now).2 = [Req.unlockAndDestroy]) ∧
    (∀ (l : Locker) (now : Nat), ((tickAuto l now).1).state = l.state) := by
  refine ⟨runMain_unlock_at_most_once, ?_, ?_⟩
  · intro l now hne
    rcases tickAuto_cases l now with hcase | ⟨hst, hsent, hdl, -, hcase⟩
    · rw [hcase] at hne
      exact absurd rfl hne
    · rw [hcase]
      exact ⟨hst, hsent, hdl, rfl⟩
  · intro l now
    rcases tickAuto_cases l now with hcase | ⟨-, -, -, -, hcase⟩ <;> rw [hcase]

/-- Witness for C5: a run that ticks past the deadline twice still emits
at most one `unlock_and_destroy`. -/
theorem auto_unlock_once_C5_witness :
    List.countP Req.isUnlock
      (runMain lockerC5 [MainAct.tick 6, MainAct.tick 7, MainAct.tick 8]).2 ≤ 1 :=
  auto_unlock_once_C5.1 lockerC5 [MainAct.tick 6, MainAct.tick 7, MainAct.tick 8] rfl

/-- C4 (amended): the lock request is the only operation that produces
`Waiting`; an incoming event yields `Locked` only if it is the `locked`
event, and `Finished` only if it is the `finished` event; unknown events
never change the state.  However the `Locked`/`Finished` assignments in
the handler are unconditional (they do not check the current state), so
`Finished` is terminal only for event sequences that contain no `locked`
event after it — which the protocol guarantees — not for arbitrary
sequences. -/
theorem lock_transitions_C4 :
    (∀ l : Locker, (request_lock l).state = .Waiting) ∧
    (∀ (l : Locker) (e : LockEvent) (now : Nat),
      (handleLockEvent l e now).state = .Waiting → l.state = .Waiting ∧ e = .unknown) ∧
    (∀ (l : Locker) (e : LockEvent) (now : Nat), l.state ≠ .Locked →
      (handleLockEvent l e now).state = .Locked → e = .locked) ∧
    (∀ (l : Locker) (e : LockEvent) (now : Nat), l.state ≠ .Finished →
      (handleLockEvent l e now).state = .Finished → e = .finished) ∧
    (∀ (l : Locker) (acts : List MainAct), l.state = .Finished →
      (∀ now, MainAct.dispatchLock .locked now ∉ acts) →
      ((runMain l acts).1).state = .Finished) := by
  refine ⟨fun l => rfl, ?_, ?_, ?_, ?_⟩
  · intro l e now hw
    cases e
    · exact absurd hw (by simp [handleLockEvent])
    · exact absurd hw (by simp [handleLockEvent])
    · exact ⟨hw, rfl⟩
  · intro l e now hne hl
    cases e
    · rfl
    · exact absurd hl (by simp [handleLockEvent])
    · exact absurd hl hne
  · intro l e now hne hf
    cases e
    · exact absurd hf (by simp [handleLockEvent])
    · rfl
    · exact absurd hf hne
  · intro l acts hfin hnl
    induction acts generalizing l with
    | nil => exact hfin
    | cons a rest ih =>
      unfold runMain
      rcases hstep : stepMain l a with e | ⟨l', r⟩
      · exact hfin
      · dsimp only
        rcases hrun : runMain l' rest with ⟨l2, r2⟩
        dsimp only
        have hfin' : l'.state = .Finished := by
          refine stepMain_finished l a l' r hstep hfin ?_
          intro now hcontra
          exact hnl now (by rw [hcontra]; exact List.mem_cons_self _ _)
        have := ih l' hfin' (fun now hm => hnl now (List.mem_cons_of_mem _ hm))
        rw [hrun] at this
        exact this

/-- C4 counterexample: the handler's `Locked` assignment is unconditional,
so a `locked` event delivered while the state is `Finished` moves it back
to `Locked` — `Finished` is not terminal for arbitrary event sequences. -/
theorem lock_finished_not_terminal_C4_cex :
    (handleLockEvent lockerFin .locked 0).state = .Locked ∧
    LockState.Locked ≠ LockState.Finished := by
  decide

/-- Witness for C4: a run from `Finished` through a tick, a redundant
`finished` event and an unknown event stays `Finished`. -/
theorem lock_transitions_C4_witness :
    ((runMain lockerFin
      [MainAct.tick 0, MainAct.dispatchLock .finished 1,
       MainAct.dispatchLock .unknown 2]).1).state = .Finished :=
  lock_transitions_C4.2.2.2.2 lockerFin
    [MainAct.tick 0, MainAct.dispatchLock .finished 1, MainAct.dispatchLock .unknown 2]
    rfl (by intro now; simp)

/-- Helper: with both slots busy, `commit` reports `false` and leaves the
monitor untouched, emitting nothing. -/
theorem commit_both_busy (m : Monitor) (bs : BufferState) (hbs : m.buffer_state = some bs)
    (h0 : (get2 bs.buffers 0).in_use = true) (h1 : (get2 bs.buffers 1).in_use = true) :
    m.commit = (.ok false, m, []) := by
  have hacq := acquire_none_spec bs h0 h1
  have hstep : m.commit = (.ok false, { m with buffer_state := some bs }, []) := by
    simp only [Monitor.commit, hbs, hacq]
  rw [hstep]
  have : { m with buffer_state := some bs } = m := by
    rcases m with ⟨n, o, s, ls, d, b⟩
    simp at hbs
    simp [hbs]
  rw [this]

/-- Helper: with a free slot, a surface and `i32`-range dimensions,
`commit` succeeds, sending attach/damage/commit and flipping the flags. -/
theorem commit_success (m : Monitor) (bs : BufferState) (i : Nat)
    (hbs : m.buffer_state = some bs) (hsurf : m.surface = some ())
    (hw : m.dimensions.1 < 2 ^ 31) (hh : m.dimensions.2 < 2 ^ 31)
    (hi : (acquire_free_buffer_index bs).1 = some i) :
    m.commit =
      (.ok true,
       { m with buffer_state := some ({ bs with
           buffers := set2 bs.buffers i { get2 bs.buffers i with in_use := true },
           dirty := false,
           next_index := (i + 1) % 2 }) },
       [Req.attach m.name i 0 0,
        Req.damageBuffer 0 0 (Int.ofNat m.dimensions.1) (Int.ofNat m.dimensions.2),
        Req.surfaceCommit]) := by
  obtain ⟨hlt, hfree, hacq⟩ := acquire_some_spec bs i hi
  simp only [Monitor.commit, hbs, hacq, hsurf]
  simp [u32ToI32, BufferState.setInUse,
    show m.dimensions.1 < 2147483648 from by omega,
    show m.dimensions.2 < 2147483648 from by omega]

/-- C8: marking the pool dirty is idempotent (any number of settings
equals one); when the pool is dirty and a slot is free, one pass of the
main loop performs exactly one surface commit and clears `dirty`, so an
immediately following pass does nothing (exactly one redraw per batch of
dirty markings); and when the pool is dirty but both slots are busy, the
pass leaves the monitor — in particular `dirty = true` — entirely
unchanged and emits nothing, so a later iteration retries the commit
without losing the update. -/
theorem dirty_retry_C8 (m : Monitor) (bs : BufferState)
    (hbs : m.buffer_state = some bs) :
    (∀ b : BufferState, markDirty (markDirty b) = markDirty b) ∧
    (bs.dirty = true →
      (get2 bs.buffers 0).in_use = true → (get2 bs.buffers 1).in_use = true →
      loopCommitStep m = .ok (m, [])) ∧
    (bs.dirty = true → m.surface = some () →
      m.dimensions.1 < 2 ^ 31 → m.dimensions.2 < 2 ^ 31 →
      ∀ i, (acquire_free_buffer_index bs).1 = some i →
      ∃ m' reqs, loopCommitStep m = .ok (m', reqs) ∧
        List.countP Req.isSurfaceCommit reqs = 1 ∧
        (m'.buffer_state.map fun b => b.dirty) = some false ∧
        loopCommitStep m' = .ok (m', [])) := by
  refine ⟨fun b => rfl, ?_, ?_⟩
  · intro hdirty h0 h1
    have hcommit := commit_both_busy m bs hbs h0 h1
    have hcond : ((m.buffer_state.map fun b => b.dirty).getD false) = true := by
      rw [hbs]
      simpa using hdirty
    unfold loopCommitStep
    rw [if_pos hcond, hcommit]
  · intro hdirty hsurf hw hh i hi
    have hcommit := commit_success m bs i hbs hsurf hw hh hi
    have hcond : ((m.buffer_state.map fun b => b.dirty).getD false) = true := by
      rw [hbs]
      simpa using hdirty
    refine ⟨{ m with buffer_state := some ({ bs with
        buffers := set2 bs.buffers i { get2 bs.buffers i with in_use := true },
        dirty := false,
        next_index := (i + 1) % 2 }) },
      [Req.attach m.name i 0 0,
       Req.damageBuffer 0 0 (Int.ofNat m.dimensions.1) (Int.ofNat m.dimensions.2),
       Req.surfaceCommit], ?_, ?_, ?_, ?_⟩
    · unfold loopCommitStep
      rw [if_pos hcond, hcommit]
    · simp [Req.isSurfaceCommit, List.countP_cons]
    · simp
    · unfold loopCommitStep
      simp

/-- Witness for C8: on a dirty pool with a free slot, one loop pass does
exactly one surface commit, clears `dirty`, and the next pass is a no-op. -/
theorem dirty_retry_C8_witness :
    ∃ m' reqs, loopCommitStep monC8 = .ok (m', reqs) ∧
      List.countP Req.isSurfaceCommit reqs = 1 ∧
      (m'.buffer_state.map fun b => b.dirty) = some false ∧
      loopCommitStep m' = .ok (m', []) :=
  (dirty_retry_C8 monC8 bsBothFree rfl).2.2 rfl rfl (by decide) (by decide) 0 (by decide)

/-- Helper: with the shared-memory handle present and an effective
proposal whose pool byte size `width * 4 * height` fits in `i32` (the
bound under which the source's `BufferState::new` does not die),
`configureMonitor` succeeds and its first request is the acknowledgment
of the received serial. -/
theorem configureMonitor_success (m : Monitor) (w h serial : Nat)
    (hsz : 4 * (if w = 0 then 1920 else w) * (if h = 0 then 1080 else h) < 2 ^ 31) :
    ∃ m' rest, configureMonitor true m w h serial = .ok (m', Req.ackConfigure serial :: rest) := by
  have hfw1 : 1 ≤ (if w = 0 then 1920 else w) := by split <;> omega
  have hfh1 : 1 ≤ (if h = 0 then 1080 else h) := by split <;> omega
  have heq : (if w = 0 then 1920 else w) * 4 * (if h = 0 then 1080 else h) =
      4 * (if w = 0 then 1920 else w) * (if h = 0 then 1080 else h) := by ring
  have hstride : (if w = 0 then 1920 else w) * 4 < 2 ^ 31 := by
    have hle : (if w = 0 then 1920 else w) * 4 ≤
        (if w = 0 then 1920 else w) * 4 * (if h = 0 then 1080 else h) :=
      Nat.le_mul_of_pos_right _ (by omega)
    omega
  have hsize : (if w = 0 then 1920 else w) * 4 * (if h = 0 then 1080 else h) < 2 ^ 31 := by
    omega
  have hfw : (if w = 0 then 1920 else w) < 2 ^ 31 := by omega
  have hfh : (if h = 0 then 1080 else h) < 2 ^ 31 := by
    have hle : (if h = 0 then 1080 else h) ≤
        (if w = 0 then 1920 else w) * 4 * (if h = 0 then 1080 else h) :=
      Nat.le_mul_of_pos_left _ (by omega)
    omega
  obtain ⟨wi, hwi, hwiv⟩ : ∃ wi, u32ToI32 (if w = 0 then 1920 else w) = some wi ∧
      wi = Int.ofNat (if w = 0 then 1920 else w) := by
    unfold u32ToI32
    rw [if_pos hfw]
    exact ⟨_, rfl, rfl⟩
  obtain ⟨hi, hhi, hhiv⟩ : ∃ hi, u32ToI32 (if h = 0 then 1080 else h) = some hi ∧
      hi = Int.ofNat (if h = 0 then 1080 else h) := by
    unfold u32ToI32
    rw [if_pos hfh]
    exact ⟨_, rfl, rfl⟩
  have hmul1 : i32Mul wi 4 = some (wi * 4) := by
    unfold i32Mul
    rw [if_pos]
    constructor
    · rw [hwiv]
      simp only [Int.ofNat_eq_natCast]
      omega
    · rw [hwiv]
      simp only [Int.ofNat_eq_natCast]
      omega
  have hmul2 : i32Mul (wi * 4) hi = some (wi * 4 * hi) := by
    unfold i32Mul
    rw [if_pos]
    have hcast : wi * 4 * hi =
        Int.ofNat ((if w = 0 then 1920 else w) * 4 * (if h = 0 then 1080 else h)) := by
      rw [hwiv, hhiv]
      simp only [Int.ofNat_eq_natCast]
      push_cast
      ring
    rw [hcast]
    simp only [Int.ofNat_eq_natCast]
    constructor <;> omega
  obtain ⟨bs0, hnew⟩ : ∃ bs0, BufferState.new wi hi = .ok bs0 := by
    unfold BufferState.new BufferSlot.new
    rw [hmul1]
    dsimp only
    rw [hmul2]
    dsimp only
    exact ⟨_, rfl⟩
  unfold configureMonitor
  rw [if_neg (show ¬(true = false) from by decide)]
  rw [hwi, hhi]
  dsimp only
  rw [hnew]
  exact ⟨_, _, rfl⟩

/-- Helper (model-fidelity evidence): an effective width of `2 ^ 30`
overflows the `i32` stride computation `width * 4` inside
`BufferState::new`, so the configure dies with an error instead of
completing — for any monitor and serial.  The model refuses exactly the
configures on which the program aborts. -/
theorem configureMonitor_overflow_dies (m : Monitor) (serial : Nat) :
    configureMonitor true m (2 ^ 30) 1 serial =
      .error "i32 overflow computing stride" := rfl

/-- Helper: when the scanned monitor list holds exactly one monitor whose
lock-surface id matches, the configure scan rewrites exactly that entry
and emits exactly that monitor's requests. -/
theorem configureAll_single_match (shm : Bool) (pre post : List (Nat × Monitor)) (k : Nat)
    (m : Monitor) (pid w h serial : Nat)
    (hm : m.lock_surface = some pid)
    (hpre : ∀ km ∈ pre, km.2.lock_surface ≠ some pid)
    (hpost : ∀ km ∈ post, km.2.lock_surface ≠ some pid)
    (m' : Monitor) (mreqs : List Req)
    (hcm : configureMonitor shm m w h serial = .ok (m', mreqs)) :
    configureAll shm (pre ++ (k, m) :: post) pid w h serial =
      .ok (pre ++ (k, m') :: post, mreqs) := by
  induction pre with
  | nil =>
    unfold configureAll
    rw [List.nil_append]
    dsimp only
    rw [if_pos hm, hcm]
    dsimp only
    rw [configureAll_nomatch shm post pid w h serial hpost]
    simp
  | cons q qre ih =>
    rcases q with ⟨k2, m2⟩
    unfold configureAll
    rw [List.cons_append]
    dsimp only
    rw [if_neg (hpre (k2, m2) (by simp))]
    rw [ih (fun x hx => hpre x (List.mem_cons_of_mem _ hx))]
    simp

/-- C6: a configure event matching exactly one known lock-surface — with
an effective pool byte size `4 * width * height` that fits in `i32`, the
exact bound under which the source's `BufferState::new` survives its
`i32` stride/size arithmetic (beyond it the handler dies in the
`.unwrap()` and nothing completes) — replaces a proposed width 0 by 1920
and a proposed height 0 by 1080 while passing nonzero proposals through
unchanged, and sends `ack_configure` exactly once — with the received
serial, first in the emitted batch, after the fallback policy has been
applied to the stored dimensions. -/
theorem configure_fallback_ack_C6 (l : Locker) (pid w h serial : Nat)
    (pre post : List (Nat × Monitor)) (k : Nat) (m : Monitor)
    (hsplit : l.monitors = pre ++ (k, m) :: post)
    (hm : m.lock_surface = some pid)
    (hpre : ∀ km ∈ pre, km.2.lock_surface ≠ some pid)
    (hpost : ∀ km ∈ post, km.2.lock_surface ≠ some pid)
    (hshm : l.shared_memory = some ())
    (hsz : 4 * (if w = 0 then 1920 else w) * (if h = 0 then 1080 else h) < 2 ^ 31) :
    ∃ m' rest,
      handleConfigure l pid w h serial =
        .ok ({ l with monitors := pre ++ (k, m') :: post },
             Req.ackConfigure serial :: rest) ∧
      m'.dimensions = ((if w = 0 then 1920 else w), (if h = 0 then 1080 else h)) ∧
      (∀ r ∈ rest, r.isAck = false) := by
  obtain ⟨m', rest, hcm⟩ := configureMonitor_success m w h serial hsz
  obtain ⟨⟨rest2, hr2, hplain⟩, hdims⟩ :=
    configureMonitor_ok_spec true m w h serial m' (Req.ackConfigure serial :: rest) hcm
  refine ⟨m', rest, ?_, hdims, ?_⟩
  · unfold handleConfigure
    rw [hsplit]
    have hs : l.shared_memory.isSome = true := by rw [hshm]; rfl
    rw [hs]
    rw [configureAll_single_match true pre post k m pid w h serial hm hpre hpost m' _ hcm]
  · have hre : rest = rest2 := by
      injection hr2
    intro r hr
    rw [hre] at hr
    exact (hplain r hr).2

/-- Witness for C6: configuring lock-surface 21 with proposal (0, 600) —
pool size 4 * 1920 * 600 bytes, well inside `i32` — yields effective
dimensions (1920, 600) and a single leading `ack_configure` with the
received serial 9. -/
theorem configure_fallback_ack_C6_witness :
    ∃ m' rest,
      handleConfigure lockerC6 21 0 600 9 =
        .ok ({ lockerC6 with monitors := [(1, monC6a)] ++ (2, m') :: [] },
             Req.ackConfigure 9 :: rest) ∧
      m'.dimensions = ((if 0 = 0 then 1920 else 0), (if 600 = 0 then 1080 else 600)) ∧
      (∀ r ∈ rest, r.isAck = false) :=
  configure_fallback_ack_C6 lockerC6 21 0 600 9 [(1, monC6a)] [] 2 monC6b rfl rfl
    (by
      intro km hkm
      simp at hkm
      rw [hkm]
      decide)
    (by
      intro km hkm
      simp at hkm)
    rfl (by decide)

/-- C7 (amended): the configure handler never reads the existing pool:
for a matching monitor it rebuilds the buffer pool unconditionally on
every configure event — first or repeated, same dimensions or not — so
its result is identical whatever `buffer_state` the monitor had before
(the claim's "re-created only if the dimensions differ" does not hold;
a same-dimension configure also replaces the pool). -/
theorem configure_recreates_pool_C7 (shm : Bool) (m : Monitor) (w h serial : Nat)
    (b : Option BufferState) :
    configureMonitor shm { m with buffer_state := b } w h serial =
      configureMonitor shm m w h serial := rfl

/-- C7 counterexample: a configure event repeating the monitor's current
dimensions (1, 1) does NOT leave the existing pool unchanged: before the
event slot 1 is `in_use` and the cursor is 0; after the handler runs, the
(freshly re-created and immediately committed) pool has slot 0 `in_use`,
slot 1 free and cursor 1 — the busy flag and the cursor were reset. -/
theorem configure_same_dims_C7_cex :
    monC7.dimensions = (1, 1) ∧
    (get2 bsOldC7.buffers 0).in_use = false ∧
    (get2 bsOldC7.buffers 1).in_use = true ∧ bsOldC7.next_index = 0 ∧
    (match handleConfigure lockerC7 5 1 1 42 with
     | .ok (l', _) =>
       ((l'.monitors.lookup 7).bind Monitor.buffer_state).map
         (fun b => ((get2 b.buffers 0).in_use, (get2 b.buffers 1).in_use, b.next_index))
     | .error _ => none) = some (true, false, 1) := by
  decide
